import Mathlib

/-!
Shallow embedding of the authorization-evaluation and rolling-metrics logic of
the `grad` repository (src/network_analyzer.py and the identical `DeviceData` /
`NetworkAnalyzer.is_authorized` copies in src/futuristic_network_dashboard.py),
together with the list-based per-device traffic store of
`FuturisticNetworkDashboard._generate_next_data_point`.

Python floats are modelled as exact rationals (ℚ); Python ints as Int/Nat;
`collections.deque(maxlen=n)` as a list on which every append keeps the last
`n` elements.  Fallible operations (the `try/except` of
`process_serial_data`) are modelled with `Except`.
-/

namespace Grad

/-- Keep the last `n` elements of a list (Python `xs[-n:]` for `n > 0`). -/
def takeLast (n : Nat) (xs : List α) : List α :=
  (xs.reverse.take n).reverse

/-- Append to a `collections.deque(maxlen=maxlen)`: the new element goes to
the back and, if the buffer would exceed `maxlen`, the oldest (front)
elements are evicted so that exactly the last `maxlen` remain. -/
def dequeAppend (maxlen : Nat) (xs : List α) (x : α) : List α :=
  takeLast maxlen (xs ++ [x])

/-- One entry of `DeviceData.traffic_history`: (timestamp, traffic_value,
is_authorized), from src/network_analyzer.py line 73. -/
abbrev TrafficPoint : Type := ℚ × ℚ × Bool

/-- State of `DeviceData` (src/network_analyzer.py lines 68-89).  The
`connections` list is omitted: nothing in the embedded operations touches it. -/
structure DeviceData where
  ip : String
  name : String
  traffic_history : List TrafficPoint
  auth_history : List Bool
  total_packets : Nat
  authorized_packets : Nat
  unauthorized_packets : Nat
  last_dst_ip : Option String
  last_protocol : Option String
deriving Repr, DecidableEq

/-- Synthetic sample number `i` of the constructor prefill loop:
`(current_time - (100-i)*0.5, 0, True)` (src/network_analyzer.py line 88). -/
def prefillEntry (current_time : ℚ) (i : Nat) : TrafficPoint :=
  (current_time - ((100 - i : Nat) : ℚ) * (1 / 2), 0, true)

/-- One iteration of the prefill loop
`for i in range(100): traffic_history.append(...); auth_history.append(True)`. -/
def initStep (current_time : ℚ) (d : DeviceData) (i : Nat) : DeviceData :=
  { d with
    traffic_history := dequeAppend 100 d.traffic_history (prefillEntry current_time i)
    auth_history := dequeAppend 100 d.auth_history true }

/-- State of `DeviceData.__init__(ip, name=None)` just before the prefill
loop: empty histories, zero counters, the default display name when `name`
is `None`. -/
def DeviceData.base (ip : String) (name : Option String) : DeviceData :=
  { ip := ip
    name := name.getD ("Device (" ++ ip ++ ")")
    traffic_history := []
    auth_history := []
    total_packets := 0
    authorized_packets := 0
    unauthorized_packets := 0
    last_dst_ip := none
    last_protocol := none }

/-- Constructor `DeviceData.__init__(ip, name=None)` at construction time
`current_time`: all counters start at 0 and the loop
`for i in range(100): traffic_history.append((current_time - (100-i)*0.5, 0, True))`
prefills both history deques with 100 synthetic samples. -/
def DeviceData.init (ip : String) (name : Option String) (current_time : ℚ) : DeviceData :=
  (List.range 100).foldl (initStep current_time) (DeviceData.base ip name)

/-- Method `DeviceData.add_traffic_point(value, is_authorized, dst_ip=None,
protocol=None)` (src/network_analyzer.py lines 91-106); `now` stands for the
`time.time()` call.  The Python truthiness tests `if dst_ip:` / `if protocol:`
treat both `None` and the empty string as false. -/
def DeviceData.add_traffic_point (d : DeviceData) (now value : ℚ) (is_auth : Bool)
    (dst_ip : Option String) (protocol : Option String) : DeviceData :=
  { d with
    traffic_history := dequeAppend 100 d.traffic_history (now, value, is_auth)
    auth_history := dequeAppend 100 d.auth_history is_auth
    total_packets := d.total_packets + 1
    authorized_packets :=
      if is_auth then d.authorized_packets + 1 else d.authorized_packets
    unauthorized_packets :=
      if is_auth then d.unauthorized_packets else d.unauthorized_packets + 1
    last_dst_ip :=
      match dst_ip with
      | some s => if s = "" then d.last_dst_ip else some s
      | none => d.last_dst_ip
    last_protocol :=
      match protocol with
      | some s => if s = "" then d.last_protocol else some s
      | none => d.last_protocol }

/-- Method `DeviceData.get_traffic_data` (lines 108-113): the three component
lists of the rolling window, for plotting. -/
def DeviceData.get_traffic_data (d : DeviceData) : List ℚ × List ℚ × List Bool :=
  (d.traffic_history.map (fun p => p.1),
   d.traffic_history.map (fun p => p.2.1),
   d.traffic_history.map (fun p => p.2.2))

/-- Method `DeviceData.get_auth_percentage` (lines 115-119), with the Python
float expression `(authorized_packets / total_packets) * 100` idealized as
exact rational arithmetic.  The faithful IEEE-754 binary64 evaluation of the
same expression is `DeviceData.get_auth_percentage_fp` below; the two differ
by rounding (which is material to the exact-sum property). -/
def DeviceData.get_auth_percentage (d : DeviceData) : ℚ :=
  if d.total_packets = 0 then 100
  else ((d.authorized_packets : ℚ) / (d.total_packets : ℚ)) * 100

/-- Method `DeviceData.get_unauth_percentage` (lines 121-125), idealized over
exact rationals exactly as `DeviceData.get_auth_percentage`; the IEEE-754
evaluation is `DeviceData.get_unauth_percentage_fp`. -/
def DeviceData.get_unauth_percentage (d : DeviceData) : ℚ :=
  if d.total_packets = 0 then 0
  else ((d.unauthorized_packets : ℚ) / (d.total_packets : ℚ)) * 100

/-! ### IEEE-754 binary64 model of the percentage arithmetic

Python floats are IEEE-754 doubles: every arithmetic operation computes the
exact rational result and rounds it to 53 significand bits, to nearest, ties
to even.  The model below implements that rounding on exact rationals by
integer arithmetic (it covers the normal range, which contains every value
these accessors can produce; numbers here are nowhere near overflow or
subnormal territory). -/

/-- Fueled bit length: Nat.log2 is not kernel-reducible, so count the bits
by structural recursion on the fuel (256 bits is far beyond any number
appearing in these computations). -/
def bitLenAux : Nat → Nat → Nat
  | 0, _ => 0
  | fuel + 1, n => if n = 0 then 0 else bitLenAux fuel (n / 2) + 1

/-- Number of binary digits of `n`: for `n ≥ 1`,
`2 ^ (bitLen n - 1) ≤ n < 2 ^ bitLen n`. -/
def bitLen (n : Nat) : Nat := bitLenAux 256 n

/-- Floor of the base-2 logarithm of the positive rational `N / d`. -/
def floorLog2 (N d : Nat) : Int :=
  let e0 : Int := (bitLen N : Int) - (bitLen d : Int)
  let ge : Bool :=
    if e0 ≥ 0 then decide (N ≥ d * 2 ^ e0.toNat)
    else decide (N * 2 ^ (-e0).toNat ≥ d)
  if ge then e0 else e0 - 1

/-- Round the positive rational `N / d` to a 53-bit significand, to nearest
with ties to even: returns `(m, e)` with the rounded value `m * 2 ^ e`. -/
def roundSigPos (N d : Nat) : Nat × Int :=
  let E := floorLog2 N d
  let shift : Int := 52 - E
  let P := if shift ≥ 0 then N * 2 ^ shift.toNat else N
  let Q := if shift ≥ 0 then d else d * 2 ^ (-shift).toNat
  let m0 := P / Q
  let r := P % Q
  let m := if 2 * r < Q then m0
    else if 2 * r > Q then m0 + 1
    else if m0 % 2 = 0 then m0 else m0 + 1
  (m, E - 52)

/-- Round an exact rational to the nearest IEEE-754 binary64 value (round
to nearest, ties to even; normal range). -/
def roundDouble (q : ℚ) : ℚ :=
  if q.num = 0 then 0
  else
    let mE := roundSigPos q.num.natAbs q.den
    let s : Int := if q.num < 0 then -1 else 1
    if mE.2 ≥ 0 then ((s * ((mE.1 * 2 ^ mE.2.toNat : Nat) : Int)) : ℚ)
    else Rat.divInt (s * (mE.1 : Int)) ((2 ^ (-mE.2).toNat : Nat) : Int)

/-- IEEE-754 binary64 division: the exact quotient, correctly rounded. -/
def fdiv (a b : ℚ) : ℚ :=
  roundDouble (Rat.divInt (a.num * (b.den : Int)) ((a.den : Int) * b.num))

/-- IEEE-754 binary64 multiplication: the exact product, correctly
rounded. -/
def fmul (a b : ℚ) : ℚ :=
  roundDouble (Rat.divInt (a.num * b.num) ((a.den : Int) * (b.den : Int)))

/-- IEEE-754 binary64 addition: the exact sum, correctly rounded. -/
def fadd (a b : ℚ) : ℚ :=
  roundDouble (Rat.divInt (a.num * (b.den : Int) + b.num * (a.den : Int))
    ((a.den : Int) * (b.den : Int)))

/-- Method `DeviceData.get_auth_percentage` under faithful IEEE-754 binary64
arithmetic: the Python ints convert to doubles exactly (they are far below
2^53 here), the division rounds, then the multiplication by 100 rounds. -/
def DeviceData.get_auth_percentage_fp (d : DeviceData) : ℚ :=
  if d.total_packets = 0 then 100
  else fmul (fdiv (d.authorized_packets : ℚ) (d.total_packets : ℚ)) 100

/-- Method `DeviceData.get_unauth_percentage` under faithful IEEE-754
binary64 arithmetic. -/
def DeviceData.get_unauth_percentage_fp (d : DeviceData) : ℚ :=
  if d.total_packets = 0 then 0
  else fmul (fdiv (d.unauthorized_packets : ℚ) (d.total_packets : ℚ)) 100

/-- One ACL rule: the tuple `(src_ip, dst_ip, protocol, (port_lo, port_hi))`
of src/network_analyzer.py line 185. -/
structure AclRule where
  rule_src : String
  rule_dst : String
  rule_proto : String
  port_lo : Int
  port_hi : Int
deriving Repr, DecidableEq

/-- The hardcoded rule table built by `NetworkAnalyzer._initialize_acl_rules`
(src/network_analyzer.py lines 181-213), in insertion order. -/
def aclRules : List AclRule :=
  [ ⟨"192.168.1.101", "192.168.1.100", "TCP", 80, 443⟩
  , ⟨"192.168.1.102", "192.168.1.100", "TCP", 80, 443⟩
  , ⟨"192.168.1.103", "192.168.1.100", "TCP", 80, 443⟩
  , ⟨"192.168.1.104", "192.168.1.100", "TCP", 80, 443⟩
  , ⟨"192.168.1.105", "192.168.1.100", "TCP", 80, 443⟩
  , ⟨"192.168.1.106", "192.168.1.100", "TCP", 80, 443⟩
  , ⟨"192.168.1.104", "192.168.1.100", "TCP", 22, 22⟩
  , ⟨"192.168.1.104", "192.168.1.101", "TCP", 22, 22⟩
  , ⟨"192.168.1.104", "192.168.1.102", "TCP", 22, 22⟩
  , ⟨"192.168.1.104", "192.168.1.103", "TCP", 22, 22⟩
  , ⟨"192.168.1.104", "192.168.1.105", "TCP", 22, 22⟩
  , ⟨"192.168.1.104", "192.168.1.106", "TCP", 22, 22⟩
  , ⟨"192.168.1.103", "192.168.1.100", "TCP", 20, 21⟩
  , ⟨"192.168.1.101", "192.168.1.100", "UDP", 53, 53⟩
  , ⟨"192.168.1.102", "192.168.1.100", "UDP", 53, 53⟩
  , ⟨"192.168.1.103", "192.168.1.100", "UDP", 53, 53⟩
  , ⟨"192.168.1.104", "192.168.1.100", "UDP", 53, 53⟩
  , ⟨"192.168.1.105", "192.168.1.100", "UDP", 53, 53⟩
  , ⟨"192.168.1.106", "192.168.1.100", "UDP", 53, 53⟩ ]

/-- The guard of the loop body of `is_authorized` (lines 219-222):
exact string equality on source, destination and protocol, and the chained
inclusive comparison `port_range[0] <= port <= port_range[1]`. -/
def ruleMatches (r : AclRule) (src_ip dst_ip protocol : String) (port : Int) : Bool :=
  (src_ip == r.rule_src) && (dst_ip == r.rule_dst) && (protocol == r.rule_proto) &&
  decide (r.port_lo ≤ port) && decide (port ≤ r.port_hi)

/-- The `for rule in self.acl_rules` loop of `is_authorized`
(src/network_analyzer.py lines 215-224): scan in order, return `true` on the
first matching rule, `false` when the list is exhausted. -/
def scanAcl (rules : List AclRule) (src_ip dst_ip protocol : String) (port : Int) : Bool :=
  match rules with
  | [] => false
  | r :: rs =>
    if ruleMatches r src_ip dst_ip protocol port then true
    else scanAcl rs src_ip dst_ip protocol port

/-- Method `NetworkAnalyzer.is_authorized(src_ip, dst_ip, protocol, port)`,
parameterised by the rule table it scans. -/
def is_authorized (rules : List AclRule) (src_ip dst_ip protocol : String) (port : Int) : Bool :=
  scanAcl rules src_ip dst_ip protocol port

/-- State of `NetworkAnalyzer` restricted to the fields the embedded
operations read or write: the device map (as an association list in insertion
order), the rule table, and the two global counters (lines 130-154).  The
GUI/simulation fields (`running`, `memory_usage`, `system_load`, `cpu_usage`)
are omitted. -/
structure NetworkAnalyzer where
  devices : List (String × DeviceData)
  acl_rules : List AclRule
  total_authorized : Nat
  total_unauthorized : Nat
deriving Repr, DecidableEq

/-- The seven monitored device addresses of `_initialize_devices`
(lines 158-166). -/
def deviceIps : List String :=
  [ "192.168.1.100", "192.168.1.101", "192.168.1.102", "192.168.1.103"
  , "192.168.1.104", "192.168.1.105", "192.168.1.106" ]

/-- The display names of `_initialize_devices` (lines 168-176). -/
def deviceNames : List String :=
  [ "Server", "Workstation 1", "Workstation 2", "Dev Machine"
  , "Admin Laptop", "IoT Gateway", "Testing VM" ]

/-- Constructor `NetworkAnalyzer.__init__` at construction time `ct`:
seven fresh `DeviceData` records, the hardcoded rule table, zero counters. -/
def NetworkAnalyzer.init (ct : ℚ) : NetworkAnalyzer :=
  { devices := List.zipWith (fun ip nm => (ip, DeviceData.init ip (some nm) ct)) deviceIps deviceNames
    acl_rules := aclRules
    total_authorized := 0
    total_unauthorized := 0 }

/-- Method `NetworkAnalyzer.get_auth_percentage` (lines 341-346), with the
float division idealized as exact rational arithmetic; the IEEE-754
evaluation is `NetworkAnalyzer.get_auth_percentage_fp`. -/
def NetworkAnalyzer.get_auth_percentage (a : NetworkAnalyzer) : ℚ :=
  let total := a.total_authorized + a.total_unauthorized
  if total = 0 then 100
  else ((a.total_authorized : ℚ) / (total : ℚ)) * 100

/-- Method `NetworkAnalyzer.get_unauth_percentage` (lines 348-353), with the
float division idealized as exact rational arithmetic; the IEEE-754
evaluation is `NetworkAnalyzer.get_unauth_percentage_fp`. -/
def NetworkAnalyzer.get_unauth_percentage (a : NetworkAnalyzer) : ℚ :=
  let total := a.total_authorized + a.total_unauthorized
  if total = 0 then 0
  else ((a.total_unauthorized : ℚ) / (total : ℚ)) * 100

/-- Method `NetworkAnalyzer.get_auth_percentage` under faithful IEEE-754
binary64 arithmetic. -/
def NetworkAnalyzer.get_auth_percentage_fp (a : NetworkAnalyzer) : ℚ :=
  let total := a.total_authorized + a.total_unauthorized
  if total = 0 then 100
  else fmul (fdiv (a.total_authorized : ℚ) (total : ℚ)) 100

/-- Method `NetworkAnalyzer.get_unauth_percentage` under faithful IEEE-754
binary64 arithmetic. -/
def NetworkAnalyzer.get_unauth_percentage_fp (a : NetworkAnalyzer) : ℚ :=
  let total := a.total_authorized + a.total_unauthorized
  if total = 0 then 0
  else fmul (fdiv (a.total_unauthorized : ℚ) (total : ℚ)) 100

/-- Python `str.strip()`: remove leading and trailing whitespace (on the
underlying character list, so that it evaluates inside the kernel). -/
def pyStrip (cs : List Char) : List Char :=
  ((cs.dropWhile Char.isWhitespace).reverse.dropWhile Char.isWhitespace).reverse

/-- Accumulator loop of `pySplit`. -/
def pySplitAux (sep : Char) : List Char → List Char → List (List Char)
  | acc, [] => [acc.reverse]
  | acc, c :: rest =>
    if c = sep then acc.reverse :: pySplitAux sep [] rest
    else pySplitAux sep (c :: acc) rest

/-- Python `s.split(sep)` for a one-character separator: splitting the empty
string gives `[""]`, and separators at the ends produce empty fields, exactly
as in Python. -/
def pySplit (sep : Char) (cs : List Char) : List (List Char) :=
  pySplitAux sep [] cs

/-- Value of a nonempty all-digit character list read in base 10. -/
def digitsToNat (cs : List Char) : Nat :=
  cs.foldl (fun acc c => acc * 10 + (c.toNat - 48)) 0

/-- Parse a nonempty all-digit character list; anything else fails. -/
def parseNatDigits (cs : List Char) : Option Nat :=
  if cs ≠ [] ∧ cs.all Char.isDigit then some (digitsToNat cs) else none

/-- Python `int(s)` on the inputs relevant here: optional surrounding
whitespace, optional sign, decimal digits; anything else raises a
`ValueError` (modelled as `none`). -/
def pyInt (cs : List Char) : Option Int :=
  match pyStrip cs with
  | '-' :: rest => (parseNatDigits rest).map (fun n => -(n : Int))
  | '+' :: rest => (parseNatDigits rest).map (fun n => (n : Int))
  | t => (parseNatDigits t).map (fun n => (n : Int))

/-- Unsigned part of `pyFloat`: decimal digits with at most one decimal
point, value taken exactly (ℚ). -/
def pyFloatCore (u : List Char) : Option ℚ :=
  match pySplit '.' u with
  | [a] => (parseNatDigits a).map (fun n => (n : ℚ))
  | [a, b] =>
    if a = [] ∧ b = [] then none
    else
      match (if a = [] then some 0 else parseNatDigits a),
            (if b = [] then some 0 else parseNatDigits b) with
      | some x, some y => some ((x : ℚ) + (y : ℚ) / ((10 : ℚ) ^ b.length))
      | _, _ => none
  | _ => none

/-- Python `float(s)` on the inputs relevant here: optional surrounding
whitespace, optional sign, decimal digits with at most one decimal point;
anything else raises a `ValueError` (modelled as `none`). -/
def pyFloat (cs : List Char) : Option ℚ :=
  match pyStrip cs with
  | '-' :: rest => (pyFloatCore rest).map (fun q => -q)
  | '+' :: rest => pyFloatCore rest
  | t => pyFloatCore t

/-- Body of the `try:` block of `NetworkAnalyzer.process_serial_data`
(src/network_analyzer.py lines 306-333); `now` stands for `time.time()`.
A raised exception (non-integer port, non-numeric bytes) is an `Except.error`
carrying the exception message; a line with fewer than five comma-separated
fields or an unknown source address falls through the `if` guards and returns
the state unchanged. -/
def processSerialDataCore (a : NetworkAnalyzer) (now : ℚ) (serial_data : String) :
    Except String NetworkAnalyzer :=
  let data := pySplit ',' (pyStrip serial_data.data)
  if data.length ≥ 5 then
    let src_ip : String := ⟨data.getD 0 []⟩
    let dst_ip : String := ⟨data.getD 1 []⟩
    let protocol : String := ⟨data.getD 2 []⟩
    match pyInt (data.getD 3 []) with
    | none => .error "invalid literal for int()"
    | some port =>
      match pyFloat (data.getD 4 []) with
      | none => .error "could not convert string to float"
      | some bytes =>
        match a.devices.lookup src_ip with
        | none => .ok a
        | some dev =>
          let is_auth := is_authorized a.acl_rules src_ip dst_ip protocol port
          let dev2 := dev.add_traffic_point now bytes is_auth (some dst_ip) (some protocol)
          .ok
            { a with
              devices := a.devices.map (fun kv => if kv.1 = src_ip then (kv.1, dev2) else kv)
              total_authorized :=
                if is_auth then a.total_authorized + 1 else a.total_authorized
              total_unauthorized :=
                if is_auth then a.total_unauthorized else a.total_unauthorized + 1 }
  else .ok a

/-- Method `NetworkAnalyzer.process_serial_data` with its enclosing
`try/except Exception` (lines 306-335): an exception raised inside the body
is caught and printed; the second component is the printed log line, `none`
when nothing is printed. -/
def processSerialData (a : NetworkAnalyzer) (now : ℚ) (serial_data : String) :
    NetworkAnalyzer × Option String :=
  match processSerialDataCore a now serial_data with
  | .ok a2 => (a2, none)
  | .error e => (a, some ("Error processing serial data: " ++ e))

/-- One `add_traffic_point` call: (now, value, is_authorized, dst_ip,
protocol). -/
abbrev Call : Type := ℚ × ℚ × Bool × Option String × Option String

/-- Replay a sequence of `add_traffic_point` calls on a device, oldest
first. -/
def applyCalls (d : DeviceData) (calls : List Call) : DeviceData :=
  calls.foldl (fun d c => d.add_traffic_point c.1 c.2.1 c.2.2.1 c.2.2.2.1 c.2.2.2.2) d

/-- The history entry a call appends. -/
def callEntry (c : Call) : TrafficPoint := (c.1, c.2.1, c.2.2.1)

/-- The 100 synthetic samples `DeviceData.__init__` prefills the history
with: timestamps `current_time - (100-i)*0.5` for `i = 0..99`, value 0,
authorized. -/
def prefill (current_time : ℚ) : List TrafficPoint :=
  (List.range 100).map (prefillEntry current_time)

/-- Per-device traffic store of
`FuturisticNetworkDashboard._generate_next_data_point`
(src/futuristic_network_dashboard.py lines 1048-1051): trim to the last 60
elements when the length exceeds 60, then append the new value. -/
def listStoreStep (traffic : List α) (value : α) : List α :=
  (if traffic.length > 60 then takeLast 60 traffic else traffic) ++ [value]

/-- Concrete reachable device state: a fresh device after three
`add_traffic_point` calls, one authorized and two unauthorized
(counters: authorized 1, unauthorized 2, total 3). -/
def sampleDevice3 : DeviceData :=
  applyCalls (DeviceData.init "192.168.1.100" none 0)
    [(1, 1, true, none, none), (2, 1, false, none, none), (3, 1, false, none, none)]

/-- Concrete analyzer state with global counters authorized 1,
unauthorized 2. -/
def sampleAnalyzer3 : NetworkAnalyzer :=
  NetworkAnalyzer.mk [] aclRules 1 2

/-! ### Helper lemmas about `takeLast`, `dequeAppend` and the state folds -/

theorem takeLast_length (n : Nat) (xs : List α) : (takeLast n xs).length = min n xs.length := by
  simp [takeLast]

theorem takeLast_of_length_le (n : Nat) (xs : List α) (h : xs.length ≤ n) :
    takeLast n xs = xs := by
  have : xs.reverse.take n = xs.reverse := List.take_of_length_le (by simpa using h)
  simp [takeLast, this]

theorem takeLast_nil (n : Nat) : takeLast n ([] : List α) = [] := by
  simp [takeLast]

theorem take_append_take (n : Nat) (b a : List α) :
    (b ++ a.take n).take n = (b ++ a).take n := by
  rw [List.take_append_eq_append_take, List.take_append_eq_append_take, List.take_take]
  have : min (n - b.length) n = n - b.length := by omega
  rw [this]

theorem takeLast_append_takeLast (n : Nat) (xs ys : List α) :
    takeLast n (takeLast n xs ++ ys) = takeLast n (xs ++ ys) := by
  simp only [takeLast, List.reverse_append, List.reverse_reverse]
  rw [take_append_take]

theorem foldl_dequeAppend (n : Nat) (es : List α) :
    ∀ xs : List α, es.foldl (dequeAppend n) (takeLast n xs) = takeLast n (xs ++ es) := by
  induction es with
  | nil => intro xs; simp
  | cons e es ih =>
    intro xs
    have h1 : dequeAppend n (takeLast n xs) e = takeLast n (xs ++ [e]) := by
      rw [dequeAppend, takeLast_append_takeLast]
    calc (e :: es).foldl (dequeAppend n) (takeLast n xs)
        = es.foldl (dequeAppend n) (dequeAppend n (takeLast n xs) e) := rfl
      _ = es.foldl (dequeAppend n) (takeLast n (xs ++ [e])) := by rw [h1]
      _ = takeLast n ((xs ++ [e]) ++ es) := ih (xs ++ [e])
      _ = takeLast n (xs ++ e :: es) := by rw [List.append_assoc]; rfl

theorem foldl_dequeAppend_nil (n : Nat) (es : List α) :
    es.foldl (dequeAppend n) [] = takeLast n es := by
  have := foldl_dequeAppend n es []
  simpa [takeLast_nil] using this

theorem initFold_spec (ct : ℚ) (l : List Nat) :
    ∀ d : DeviceData,
      (l.foldl (initStep ct) d).traffic_history
          = List.foldl (dequeAppend 100) d.traffic_history (l.map (prefillEntry ct))
      ∧ (l.foldl (initStep ct) d).auth_history
          = List.foldl (dequeAppend 100) d.auth_history (l.map (fun _ => true))
      ∧ (l.foldl (initStep ct) d).total_packets = d.total_packets
      ∧ (l.foldl (initStep ct) d).authorized_packets = d.authorized_packets
      ∧ (l.foldl (initStep ct) d).unauthorized_packets = d.unauthorized_packets := by
  induction l with
  | nil => intro d; simp
  | cons i l ih =>
    intro d
    have h := ih (initStep ct d i)
    simpa [initStep] using h

theorem init_traffic_history (ip : String) (nm : Option String) (ct : ℚ) :
    (DeviceData.init ip nm ct).traffic_history = prefill ct := by
  have h := (initFold_spec ct (List.range 100) (DeviceData.base ip nm)).1
  rw [DeviceData.init, h]
  show List.foldl (dequeAppend 100) [] _ = _
  rw [foldl_dequeAppend_nil, takeLast_of_length_le]
  · rfl
  · simp

theorem init_auth_history (ip : String) (nm : Option String) (ct : ℚ) :
    (DeviceData.init ip nm ct).auth_history = List.replicate 100 true := by
  have h := (initFold_spec ct (List.range 100) (DeviceData.base ip nm)).2.1
  rw [DeviceData.init, h]
  show List.foldl (dequeAppend 100) [] _ = _
  rw [foldl_dequeAppend_nil, takeLast_of_length_le _ _ (by simp)]
  simp [List.map_const']

theorem init_counters (ip : String) (nm : Option String) (ct : ℚ) :
    (DeviceData.init ip nm ct).total_packets = 0
    ∧ (DeviceData.init ip nm ct).authorized_packets = 0
    ∧ (DeviceData.init ip nm ct).unauthorized_packets = 0 := by
  have h := initFold_spec ct (List.range 100) (DeviceData.base ip nm)
  rw [DeviceData.init]
  exact ⟨h.2.2.1, h.2.2.2.1, h.2.2.2.2⟩

theorem applyCalls_spec (calls : List Call) :
    ∀ d : DeviceData,
      (applyCalls d calls).traffic_history
          = List.foldl (dequeAppend 100) d.traffic_history (calls.map callEntry)
      ∧ (applyCalls d calls).auth_history
          = List.foldl (dequeAppend 100) d.auth_history (calls.map (fun c => c.2.2.1))
      ∧ (applyCalls d calls).total_packets = d.total_packets + calls.length
      ∧ (applyCalls d calls).authorized_packets + (applyCalls d calls).unauthorized_packets
          = d.authorized_packets + d.unauthorized_packets + calls.length := by
  induction calls with
  | nil => intro d; simp [applyCalls]
  | cons c cs ih =>
    intro d
    have h := ih (d.add_traffic_point c.1 c.2.1 c.2.2.1 c.2.2.2.1 c.2.2.2.2)
    have hstep : applyCalls d (c :: cs)
        = applyCalls (d.add_traffic_point c.1 c.2.1 c.2.2.1 c.2.2.2.1 c.2.2.2.2) cs := rfl
    refine ⟨?_, ?_, ?_, ?_⟩
    · rw [hstep, h.1]
      simp [DeviceData.add_traffic_point, callEntry]
    · rw [hstep, h.2.1]
      simp [DeviceData.add_traffic_point]
    · rw [hstep, h.2.2.1]
      simp [DeviceData.add_traffic_point]
      omega
    · rw [hstep, h.2.2.2]
      cases hb : c.2.2.1 <;> simp [DeviceData.add_traffic_point, hb] <;> omega

theorem ruleMatches_iff (r : AclRule) (src dst proto : String) (port : Int) :
    ruleMatches r src dst proto port = true ↔
      (src = r.rule_src ∧ dst = r.rule_dst ∧ proto = r.rule_proto
        ∧ r.port_lo ≤ port ∧ port ≤ r.port_hi) := by
  simp [ruleMatches, and_assoc]

theorem scanAcl_eq_any (rules : List AclRule) (src dst proto : String) (port : Int) :
    scanAcl rules src dst proto port = rules.any (fun r => ruleMatches r src dst proto port) := by
  induction rules with
  | nil => rfl
  | cons r rs ih =>
    by_cases h : ruleMatches r src dst proto port = true
    · simp [scanAcl, h]
    · simp only [Bool.not_eq_true] at h
      simp [scanAcl, h, ih]

theorem scanAcl_eq_find (rules : List AclRule) (src dst proto : String) (port : Int) :
    scanAcl rules src dst proto port
      = (rules.find? (fun r => ruleMatches r src dst proto port)).isSome := by
  induction rules with
  | nil => rfl
  | cons r rs ih =>
    by_cases h : ruleMatches r src dst proto port = true
    · simp [scanAcl, h, List.find?]
    · simp only [Bool.not_eq_true] at h
      simp [scanAcl, h, List.find?, ih]

/-- C1: `is_authorized` returns true exactly when some rule of the table has
the flow's source, destination and protocol and a port range containing the
port with inclusive bounds; otherwise (including a source unknown to the
device set) it returns false.  The second conjunct is the first-match
formulation: the scan visits the table in insertion order and the result is
whether a first matching rule exists; the function is total, so no error is
raised on any input. -/
theorem is_authorized_spec (src dst proto : String) (port : Int) :
    (is_authorized aclRules src dst proto port = true ↔
      ∃ r ∈ aclRules, src = r.rule_src ∧ dst = r.rule_dst ∧ proto = r.rule_proto
        ∧ r.port_lo ≤ port ∧ port ≤ r.port_hi)
    ∧ is_authorized aclRules src dst proto port
        = (aclRules.find? (fun r => ruleMatches r src dst proto port)).isSome := by
  constructor
  · rw [is_authorized, scanAcl_eq_any, List.any_eq_true]
    constructor
    · rintro ⟨r, hr, hm⟩
      exact ⟨r, hr, (ruleMatches_iff r src dst proto port).mp hm⟩
    · rintro ⟨r, hr, hm⟩
      exact ⟨r, hr, (ruleMatches_iff r src dst proto port).mpr hm⟩
  · rw [is_authorized, scanAcl_eq_find]

/-- C6: a port equal to both bounds of a single-port range is authorized by
that rule (the SSH rule (22, 22) from Admin to the Server accepts port 22),
and protocol comparison is a case-sensitive exact string match: a protocol
differing from the rule's in any character matches no rule, so a lowercase
"tcp" flow and a "UDP" flow against TCP rules are both unauthorized. -/
theorem protocol_and_bounds_spec :
    is_authorized aclRules "192.168.1.104" "192.168.1.100" "TCP" 22 = true
    ∧ (∀ (r : AclRule) (src dst proto : String) (port : Int),
        proto ≠ r.rule_proto → ruleMatches r src dst proto port = false)
    ∧ is_authorized aclRules "192.168.1.104" "192.168.1.100" "tcp" 22 = false
    ∧ is_authorized aclRules "192.168.1.101" "192.168.1.100" "UDP" 80 = false := by
  refine ⟨by decide, ?_, by decide, by decide⟩
  intro r src dst proto port h
  simp [ruleMatches, h]

/-- Witness for C6 at concrete inputs: the generic protocol-mismatch
conjunct applied to the first HTTP rule and a "UDP" flow. -/
theorem protocol_and_bounds_spec_witness :
    ruleMatches ⟨"192.168.1.101", "192.168.1.100", "TCP", 80, 443⟩
      "192.168.1.101" "192.168.1.100" "UDP" 80 = false :=
  protocol_and_bounds_spec.2.1 _ _ _ _ _ (by decide)

theorem prefill_length (ct : ℚ) : (prefill ct).length = 100 := by
  simp [prefill]

theorem applyCalls_init_traffic_history (ip : String) (nm : Option String) (ct : ℚ)
    (calls : List Call) :
    (applyCalls (DeviceData.init ip nm ct) calls).traffic_history
      = takeLast 100 (prefill ct ++ calls.map callEntry) := by
  rw [(applyCalls_spec calls _).1, init_traffic_history]
  have h : prefill ct = takeLast 100 (prefill ct) :=
    (takeLast_of_length_le _ _ (by rw [prefill_length])).symm
  rw [h, foldl_dequeAppend]
  exact (takeLast_append_takeLast _ _ _).symm

theorem applyCalls_init_auth_history (ip : String) (nm : Option String) (ct : ℚ)
    (calls : List Call) :
    (applyCalls (DeviceData.init ip nm ct) calls).auth_history
      = takeLast 100 (List.replicate 100 true ++ calls.map (fun c => c.2.2.1)) := by
  rw [(applyCalls_spec calls _).2.1, init_auth_history]
  have h : List.replicate 100 true = takeLast 100 (List.replicate 100 true) :=
    (takeLast_of_length_le _ _ (by simp)).symm
  rw [h, foldl_dequeAppend]
  exact (takeLast_append_takeLast _ _ _).symm

theorem listStoreStep_length_le (l : List α) (v : α) (h : l.length ≤ 61) :
    (listStoreStep l v).length ≤ 61 := by
  by_cases h60 : l.length > 60
  · simp [listStoreStep, h60, takeLast_length]
  · simp only [listStoreStep, if_neg h60, List.length_append, List.length_cons,
      List.length_nil]
    omega

theorem foldl_listStore_length_le (vs : List α) :
    ∀ l : List α, l.length ≤ 61 → ((vs.foldl listStoreStep l).length ≤ 61) := by
  induction vs with
  | nil => intro l h; simpa using h
  | cons v vs ih =>
    intro l h
    exact ih (listStoreStep l v) (listStoreStep_length_le l v h)

set_option maxRecDepth 8000 in
/-- Counterexample to C2 as stated: the list-based per-device traffic store
of `_generate_next_data_point` trims to the last 60 elements before the
append, so 61 consecutive recordings starting from the empty store leave a
buffer of length 61, exceeding the stated capacity 60. -/
theorem listStore_exceeds_60 :
    ((List.replicate 61 (0 : ℚ)).foldl listStoreStep []).length = 61
    ∧ ¬ ((List.replicate 61 (0 : ℚ)).foldl listStoreStep []).length ≤ 60 := by
  constructor
  · decide
  · decide

/-- C2 amended: after every sequence of `add_traffic_point` calls, the
deque-based history buffers hold exactly 100 entries (the maxlen-100 deque
never exceeds its capacity, and is always full because of the constructor
prefill); the list-based traffic store of
`_generate_next_data_point` never exceeds length 61 — one more than the trim
threshold 60, because the trim happens before the append. -/
theorem history_capacity_spec (ip : String) (nm : Option String) (ct : ℚ)
    (calls : List Call) :
    (applyCalls (DeviceData.init ip nm ct) calls).traffic_history.length = 100
    ∧ (applyCalls (DeviceData.init ip nm ct) calls).auth_history.length = 100
    ∧ ∀ vs : List ℚ, ((vs.foldl listStoreStep []).length ≤ 61) := by
  refine ⟨?_, ?_, fun vs => foldl_listStore_length_le vs [] (by simp)⟩
  · rw [applyCalls_init_traffic_history, takeLast_length]
    simp [prefill_length]
  · rw [applyCalls_init_auth_history, takeLast_length]
    simp

/-- Counterexample to C3 as stated: after a single `add_traffic_point` call
the window does not consist of just the recorded sample — it still has 100
entries, 99 of them synthetic prefill samples that were never recorded. -/
theorem window_not_only_recorded :
    ((applyCalls (DeviceData.init "192.168.1.100" none 0)
        [(1, 7, true, none, none)]).traffic_history).length = 100
    ∧ (100 : Nat) ≠ 1 := by
  constructor
  · rw [applyCalls_init_traffic_history, takeLast_length]
    simp [prefill_length]
  · decide

/-- C3 amended: the window always holds exactly the last 100 entries of the
prefill followed by the recorded samples, in chronological order (so once at
least 100 samples have been recorded it is exactly the 100 most recently
recorded samples and nothing else, and before that the remainder of the
window is constructor prefill); `get_traffic_data` returns its three
component lists.  The last conjunct is the capacity-3 example on the
embedded deque-append semantics: recording 1, 2, 3, 4 into an empty
capacity-3 buffer yields [2, 3, 4]. -/
theorem window_contents_spec (ip : String) (nm : Option String) (ct : ℚ)
    (calls : List Call) :
    (applyCalls (DeviceData.init ip nm ct) calls).traffic_history
      = takeLast 100 (prefill ct ++ calls.map callEntry)
    ∧ (applyCalls (DeviceData.init ip nm ct) calls).get_traffic_data
      = ((takeLast 100 (prefill ct ++ calls.map callEntry)).map (fun p => p.1),
         (takeLast 100 (prefill ct ++ calls.map callEntry)).map (fun p => p.2.1),
         (takeLast 100 (prefill ct ++ calls.map callEntry)).map (fun p => p.2.2))
    ∧ List.foldl (dequeAppend 3) ([] : List ℚ) [1, 2, 3, 4] = [2, 3, 4] := by
  refine ⟨applyCalls_init_traffic_history ip nm ct calls, ?_, by decide⟩
  rw [DeviceData.get_traffic_data, applyCalls_init_traffic_history]

theorem device_pct_sum (d : DeviceData)
    (h1 : d.authorized_packets + d.unauthorized_packets = d.total_packets)
    (h2 : d.total_packets ≠ 0) :
    d.get_auth_percentage + d.get_unauth_percentage = 100 := by
  rw [DeviceData.get_auth_percentage, DeviceData.get_unauth_percentage, if_neg h2, if_neg h2]
  have ht : (d.total_packets : ℚ) ≠ 0 := Nat.cast_ne_zero.mpr h2
  have h1q : (d.authorized_packets : ℚ) + (d.unauthorized_packets : ℚ)
      = (d.total_packets : ℚ) := by exact_mod_cast h1
  field_simp
  linarith [h1q]

set_option maxRecDepth 8000 in
/-- Counterexample to C4 as stated: under the program's IEEE-754 double
arithmetic the accessors do not sum to exactly 100.  On the reachable
device state `sampleDevice3` (counters: authorized 1, unauthorized 2,
total 3) the sum of the two percentages evaluates to
7036874417766399 / 2^46 = 100 - 2^-46, one ulp below 100; the global
accessors on counters (1, 2) behave identically. -/
theorem float_percentages_sum_ne_100 :
    fadd sampleDevice3.get_auth_percentage_fp sampleDevice3.get_unauth_percentage_fp
      = Rat.divInt 7036874417766399 (2 ^ 46)
    ∧ fadd sampleDevice3.get_auth_percentage_fp sampleDevice3.get_unauth_percentage_fp ≠ 100
    ∧ fadd sampleAnalyzer3.get_auth_percentage_fp sampleAnalyzer3.get_unauth_percentage_fp
      ≠ 100 := by
  exact ⟨by decide, by decide, by decide⟩

set_option maxRecDepth 8000 in
/-- C4 amended: whenever at least one sample has been recorded, the
authorized and unauthorized percentages sum to exactly 100 when the two
divisions are taken exactly over the rationals — for the per-device
accessors on any state reached from construction by `add_traffic_point`
calls, and for the global `NetworkAnalyzer` accessors on any state with a
nonzero total.  Under the program's IEEE-754 double arithmetic the identity
holds only up to rounding: with counters (authorized 1, unauthorized 2,
total 3) both the per-device and the global sums evaluate to
7036874417766399 / 2^46 = 100 - 2^-46, not 100. -/
theorem percentages_sum_spec :
    (∀ (ip : String) (nm : Option String) (ct : ℚ) (calls : List Call), calls ≠ [] →
      (applyCalls (DeviceData.init ip nm ct) calls).get_auth_percentage
        + (applyCalls (DeviceData.init ip nm ct) calls).get_unauth_percentage = 100)
    ∧ (∀ a : NetworkAnalyzer, a.total_authorized + a.total_unauthorized ≠ 0 →
      a.get_auth_percentage + a.get_unauth_percentage = 100)
    ∧ fadd sampleDevice3.get_auth_percentage_fp sampleDevice3.get_unauth_percentage_fp
      = Rat.divInt 7036874417766399 (2 ^ 46)
    ∧ fadd sampleAnalyzer3.get_auth_percentage_fp sampleAnalyzer3.get_unauth_percentage_fp
      = Rat.divInt 7036874417766399 (2 ^ 46) := by
  refine ⟨?_, ?_, by decide, by decide⟩
  · intro ip nm ct calls hne
    have hspec := applyCalls_spec calls (DeviceData.init ip nm ct)
    have hinit := init_counters ip nm ct
    apply device_pct_sum
    · rw [hspec.2.2.2, hspec.2.2.1, hinit.1, hinit.2.1, hinit.2.2]
    · rw [hspec.2.2.1, hinit.1]
      simpa using hne
  · intro a h
    rw [NetworkAnalyzer.get_auth_percentage, NetworkAnalyzer.get_unauth_percentage]
    simp only [if_neg h]
    have ht : ((a.total_authorized : ℚ) + (a.total_unauthorized : ℚ)) ≠ 0 := by
      have := Nat.cast_ne_zero (R := ℚ).mpr h
      push_cast at this
      exact this
    push_cast
    field_simp
    ring

/-- Witness for C4: one recorded sample on a fresh device, and a global
state with one authorized flow. -/
theorem percentages_sum_spec_witness :
    (applyCalls (DeviceData.init "192.168.1.100" none 0) [(1, 2, true, none, none)]).get_auth_percentage
      + (applyCalls (DeviceData.init "192.168.1.100" none 0) [(1, 2, true, none, none)]).get_unauth_percentage = 100
    ∧ (NetworkAnalyzer.mk [] aclRules 1 0).get_auth_percentage
      + (NetworkAnalyzer.mk [] aclRules 1 0).get_unauth_percentage = 100 :=
  ⟨percentages_sum_spec.1 "192.168.1.100" none 0 [(1, 2, true, none, none)] (by simp),
   percentages_sum_spec.2.1 (NetworkAnalyzer.mk [] aclRules 1 0) (by decide)⟩

/-- C5: with zero recorded samples the accessors return their defaults via
the explicit zero-total guard — 100 for the authorized percentage, 0 for the
unauthorized one — for any device state with `total_packets = 0` (whatever
the other counters hold, showing the guard and not a division produces the
result) and for any analyzer state with zero global total.  In the
embedding no division is performed in that branch at all. -/
theorem zero_sample_defaults_spec :
    (∀ d : DeviceData, d.total_packets = 0 →
      d.get_auth_percentage = 100 ∧ d.get_unauth_percentage = 0)
    ∧ (∀ a : NetworkAnalyzer, a.total_authorized + a.total_unauthorized = 0 →
      a.get_auth_percentage = 100 ∧ a.get_unauth_percentage = 0) := by
  constructor
  · intro d h
    constructor
    · rw [DeviceData.get_auth_percentage, if_pos h]
    · rw [DeviceData.get_unauth_percentage, if_pos h]
  · intro a h
    constructor
    · rw [NetworkAnalyzer.get_auth_percentage]
      simp only [if_pos h]
    · rw [NetworkAnalyzer.get_unauth_percentage]
      simp only [if_pos h]

/-- Witness for C5: a device record with zero total (and deliberately junk
values in the other counter fields) and the freshly constructed analyzer. -/
theorem zero_sample_defaults_spec_witness :
    ((DeviceData.mk "x" "x" [] [] 0 5 7 none none).get_auth_percentage = 100
      ∧ (DeviceData.mk "x" "x" [] [] 0 5 7 none none).get_unauth_percentage = 0)
    ∧ ((NetworkAnalyzer.mk [] aclRules 0 0).get_auth_percentage = 100
      ∧ (NetworkAnalyzer.mk [] aclRules 0 0).get_unauth_percentage = 0) :=
  ⟨zero_sample_defaults_spec.1 (DeviceData.mk "x" "x" [] [] 0 5 7 none none) rfl,
   zero_sample_defaults_spec.2 (NetworkAnalyzer.mk [] aclRules 0 0) rfl⟩

/-- C8: the percentage accessors read only the cumulative counters, never
the rolling window — two device states with equal counters but arbitrary
(different) history buffers yield equal percentages, so the values reflect
every sample of the lifetime, including samples already evicted from the
window. -/
theorem percentages_ignore_window (d1 d2 : DeviceData)
    (ht : d1.total_packets = d2.total_packets)
    (ha : d1.authorized_packets = d2.authorized_packets)
    (hu : d1.unauthorized_packets = d2.unauthorized_packets) :
    d1.get_auth_percentage = d2.get_auth_percentage
    ∧ d1.get_unauth_percentage = d2.get_unauth_percentage := by
  rw [DeviceData.get_auth_percentage, DeviceData.get_auth_percentage,
    DeviceData.get_unauth_percentage, DeviceData.get_unauth_percentage, ht, ha, hu]
  exact ⟨rfl, rfl⟩

/-- Witness for C8: equal counters, one empty window against a nonempty
one. -/
theorem percentages_ignore_window_witness :
    (DeviceData.mk "a" "a" [] [] 5 3 2 none none).get_auth_percentage
      = (DeviceData.mk "b" "b" [(0, 1, false)] [false] 5 3 2 none none).get_auth_percentage
    ∧ (DeviceData.mk "a" "a" [] [] 5 3 2 none none).get_unauth_percentage
      = (DeviceData.mk "b" "b" [(0, 1, false)] [false] 5 3 2 none none).get_unauth_percentage :=
  percentages_ignore_window _ _ rfl rfl rfl

/-- C9: after any sequence of `add_traffic_point` calls on a freshly
constructed device, the cumulative counters satisfy
authorized + unauthorized = total and total equals the number of calls;
moreover a single call increments total by one and the authorized/
unauthorized pair by exactly one in total. -/
theorem counters_invariant_spec (ip : String) (nm : Option String) (ct : ℚ)
    (calls : List Call) :
    (applyCalls (DeviceData.init ip nm ct) calls).authorized_packets
        + (applyCalls (DeviceData.init ip nm ct) calls).unauthorized_packets
      = (applyCalls (DeviceData.init ip nm ct) calls).total_packets
    ∧ (applyCalls (DeviceData.init ip nm ct) calls).total_packets = calls.length
    ∧ (∀ (d : DeviceData) (now v : ℚ) (b : Bool) (dst proto : Option String),
        (d.add_traffic_point now v b dst proto).total_packets = d.total_packets + 1
        ∧ (d.add_traffic_point now v b dst proto).authorized_packets
            + (d.add_traffic_point now v b dst proto).unauthorized_packets
          = d.authorized_packets + d.unauthorized_packets + 1) := by
  have hspec := applyCalls_spec calls (DeviceData.init ip nm ct)
  have hinit := init_counters ip nm ct
  refine ⟨?_, ?_, ?_⟩
  · rw [hspec.2.2.2, hspec.2.2.1, hinit.1, hinit.2.1, hinit.2.2]
  · rw [hspec.2.2.1, hinit.1]
    omega
  · intro d now v b dst proto
    cases b <;> simp [DeviceData.add_traffic_point] <;> omega

/-- C10: immediately after construction the history already contains 100
synthetic samples — entry `i` carries timestamp `ct - (100-i)*0.5` (so the
timestamps are spaced half a second apart, all before construction time
`ct`), value 0 and authorized flag true — while all three cumulative
counters are still 0 and the percentage accessors return their zero-sample
defaults 100 and 0. -/
theorem constructor_prefill_spec (ip : String) (nm : Option String) (ct : ℚ) :
    (DeviceData.init ip nm ct).traffic_history
        = (List.range 100).map (fun i => (ct - ((100 - i : Nat) : ℚ) * (1 / 2), (0 : ℚ), true))
    ∧ (DeviceData.init ip nm ct).traffic_history.length = 100
    ∧ (DeviceData.init ip nm ct).auth_history = List.replicate 100 true
    ∧ (DeviceData.init ip nm ct).total_packets = 0
    ∧ (DeviceData.init ip nm ct).authorized_packets = 0
    ∧ (DeviceData.init ip nm ct).unauthorized_packets = 0
    ∧ (DeviceData.init ip nm ct).get_auth_percentage = 100
    ∧ (DeviceData.init ip nm ct).get_unauth_percentage = 0 := by
  have h1 := init_traffic_history ip nm ct
  have h2 := init_counters ip nm ct
  refine ⟨h1, by rw [h1, prefill_length], init_auth_history ip nm ct,
    h2.1, h2.2.1, h2.2.2, ?_, ?_⟩
  · rw [DeviceData.get_auth_percentage, if_pos h2.1]
  · rw [DeviceData.get_unauth_percentage, if_pos h2.1]

theorem core_ok_of_malformed (a : NetworkAnalyzer) (now : ℚ) (line : String)
    (h : (pySplit ',' (pyStrip line.data)).length < 5
       ∨ pyInt ((pySplit ',' (pyStrip line.data)).getD 3 []) = none
       ∨ pyFloat ((pySplit ',' (pyStrip line.data)).getD 4 []) = none
       ∨ a.devices.lookup ⟨(pySplit ',' (pyStrip line.data)).getD 0 []⟩ = none) :
    ∀ a2 : NetworkAnalyzer, processSerialDataCore a now line = Except.ok a2 → a2 = a := by
  intro a2 hc
  simp only [processSerialDataCore] at hc
  by_cases h5 : (pySplit ',' (pyStrip line.data)).length ≥ 5
  · rw [if_pos h5] at hc
    rcases h with h | h | h | h
    · omega
    · rw [h] at hc
      cases hc
    · cases hpi : pyInt ((pySplit ',' (pyStrip line.data)).getD 3 []) with
      | none => rw [hpi] at hc; cases hc
      | some p => rw [hpi, h] at hc; cases hc
    · cases hpi : pyInt ((pySplit ',' (pyStrip line.data)).getD 3 []) with
      | none => rw [hpi] at hc; cases hc
      | some p =>
        rw [hpi] at hc
        cases hpf : pyFloat ((pySplit ',' (pyStrip line.data)).getD 4 []) with
        | none => rw [hpf] at hc; cases hc
        | some q =>
          rw [hpf, h] at hc
          cases hc
          rfl
  · rw [if_neg h5] at hc
    cases hc
    rfl

/-- C7 amended: `process_serial_data` never propagates an exception — the
embedded function is total and the surrounding `try/except` turns every
raised exception into a printed log line with the pre-call state — and on
every malformed line (fewer than 5 comma-separated fields, a non-integer
port field, a non-numeric bytes field, or an unknown source address) the
sample is discarded and the analyzer state is unchanged.  However a line
with fewer than 5 fields or an unknown source is skipped silently (nothing
is logged); only the parse failures caught by the `except` are logged. -/
theorem serial_malformed_spec (a : NetworkAnalyzer) (now : ℚ) (line : String)
    (h : (pySplit ',' (pyStrip line.data)).length < 5
       ∨ pyInt ((pySplit ',' (pyStrip line.data)).getD 3 []) = none
       ∨ pyFloat ((pySplit ',' (pyStrip line.data)).getD 4 []) = none
       ∨ a.devices.lookup ⟨(pySplit ',' (pyStrip line.data)).getD 0 []⟩ = none) :
    (processSerialData a now line).1 = a
    ∧ ((processSerialData a now line).2 = none
        ∨ ∃ e, (processSerialData a now line).2
            = some ("Error processing serial data: " ++ e)) := by
  cases hc : processSerialDataCore a now line with
  | ok a2 =>
    have ha2 : a2 = a := core_ok_of_malformed a now line h a2 hc
    rw [processSerialData, hc, ha2]
    exact ⟨rfl, Or.inl rfl⟩
  | error e =>
    rw [processSerialData, hc]
    exact ⟨rfl, Or.inr ⟨e, rfl⟩⟩

/-- Counterexample to C7 as stated: the line "a,b,c" is malformed (3 < 5
comma-separated fields), yet nothing is logged — the claim says every such
line is logged, but the `len(data) >= 5` guard skips it silently. -/
theorem serial_skip_not_logged :
    ((pySplit ',' (pyStrip "a,b,c".data)).length < 5)
    ∧ (processSerialData (NetworkAnalyzer.init 0) 0 "a,b,c").2 = none :=
  ⟨by decide, rfl⟩

/-- Witness for C7 at a concrete malformed input: the pre-call state is
returned unchanged. -/
theorem serial_malformed_spec_witness :
    (processSerialData (NetworkAnalyzer.init 0) 0 "a,b,c").1 = NetworkAnalyzer.init 0
    ∧ ((processSerialData (NetworkAnalyzer.init 0) 0 "a,b,c").2 = none
        ∨ ∃ e, (processSerialData (NetworkAnalyzer.init 0) 0 "a,b,c").2
            = some ("Error processing serial data: " ++ e)) :=
  serial_malformed_spec (NetworkAnalyzer.init 0) 0 "a,b,c" (Or.inl (by decide))

end Grad
